import Mathlib

/-!
Verification of the diagnostic-test orchestration logic of the NeuroMath
navigator. The definitions below are a shallow embedding of the `Diagnostic`
React component (the core state machine: `handleAgeSubmit`,
`handleStudentInfoSubmit`, `handleAnswerSubmit`, `saveResponses`,
`detectBlockers`, `generateRoadmap`) together with the rows it writes to the
external store. External calls (Supabase inserts/updates, the two
question-generation endpoints, the roadmap endpoint) are modelled as oracle
inputs supplied to each handler; each handler returns the successor component
state together with the list of observable events it emitted (committed
database writes, outgoing requests, toasts, console logs).
-/

set_option maxHeartbeats 1000000

/-- The `severity_level` enum of the schema and the severity values computed
in `generateRoadmap`. -/
inductive Severity where
  | none
  | mild
  | moderate
  | severe
deriving DecidableEq, Repr

/-- The UI stages of the `Diagnostic` component:
`useState<"age" | "student-info" | "main-test" | "confirmatory" | "roadmap">`. -/
inductive Stage where
  | age
  | studentInfo
  | mainTest
  | confirmatory
  | roadmap
deriving DecidableEq, Repr

/-- The `Question` interface:
`{ questionText, correctAnswer, construct, difficultyLevel }`. -/
structure Question where
  questionText : String
  correctAnswer : String
  construct : String
  difficultyLevel : Nat
deriving DecidableEq, Repr

/-- The response objects built in `handleAnswerSubmit`. -/
structure Response where
  questionNumber : Nat
  questionText : String
  userAnswer : String
  correctAnswer : String
  isCorrect : Bool
  construct : String
  difficultyLevel : Nat
deriving DecidableEq, Repr

/-- The client-side `Blocker` interface: `{ blocker_name, error_count }`. -/
structure Blocker where
  blocker_name : String
  error_count : Nat
deriving DecidableEq, Repr

/-- A row of the `blockers_detected` table
(`test_id`, `blocker_name`, `error_count`, `is_confirmed`). -/
structure BlockerRow where
  test_id : Nat
  blocker_name : String
  error_count : Nat
  is_confirmed : Bool
deriving DecidableEq, Repr

/-- The roadmap payload returned by `generate-roadmap`; its content is opaque
to the state machine, which only stores and forwards it. -/
structure RoadmapData where
  payload : String
deriving DecidableEq, Repr

/-- `const MAIN_TEST_LENGTH = 10`. -/
def MAIN_TEST_LENGTH : Nat := 10

/-- `const CONFIRMATORY_LENGTH = 5`. -/
def CONFIRMATORY_LENGTH : Nat := 5

/-- JavaScript `String.prototype.trim`: drop leading and trailing whitespace.
Modelled over the character list so that it evaluates by kernel reduction. -/
def jsTrim (s : String) : String :=
  ⟨((s.data.dropWhile Char.isWhitespace).reverse.dropWhile Char.isWhitespace).reverse⟩

/-- JavaScript `String.prototype.toLowerCase` (ASCII case folding, which is
all the generated answers use). -/
def jsToLower (s : String) : String :=
  ⟨s.data.map Char.toLower⟩

/-- The answer comparison performed in `handleAnswerSubmit`:
`userAnswer.trim().toLowerCase() === question.correctAnswer.toLowerCase()`.
Note that only the student answer is trimmed; the reference answer is only
lower-cased. -/
def evaluateAnswer (userAnswer correctAnswer : String) : Bool :=
  jsToLower (jsTrim userAnswer) == jsToLower correctAnswer

/-- The error count accumulated against construct `c` by `detectBlockers`:
`allResponses.filter(r => !r.isCorrect)` contributes one per incorrect
response whose `construct` is `c`. -/
def errCount (allResponses : List Response) (c : String) : Nat :=
  (allResponses.filter fun r => !r.isCorrect && r.construct == c).length

/-- First-occurrence deduplication. This models the key set of the plain
object accumulator `constructErrors` in `detectBlockers`: `Object.entries`
enumerates (non-index-like) string keys in insertion order, i.e. in order of
each construct's first incorrect response. -/
def dedupFirst : List String → List String
  | [] => []
  | c :: cs => c :: ((dedupFirst cs).filter fun x => x != c)

/-- The keys of `constructErrors`, in insertion order: the constructs of the
incorrect responses, first occurrence first. -/
def errConstructs (allResponses : List Response) : List String :=
  dedupFirst ((allResponses.filter fun r => !r.isCorrect).map fun r => r.construct)

/-- The pure core of `detectBlockers`:
`Object.entries(constructErrors).filter(([_, count]) => count >= 2)
  .map(([construct, count]) => ({ blocker_name: construct, error_count: count }))`. -/
def detectBlockersPure (allResponses : List Response) : List Blocker :=
  ((errConstructs allResponses).filter fun c =>
      decide (2 ≤ errCount allResponses c)).map
    fun c => { blocker_name := c, error_count := errCount allResponses c }

/-- The rows `detectBlockers` inserts into `blockers_detected`:
each detected blocker with `is_confirmed: false`. -/
def blockerInsertRows (testId : Nat) (bs : List Blocker) : List BlockerRow :=
  bs.map fun b => ⟨testId, b.blocker_name, b.error_count, false⟩

/-- `const errorRate = allResponses.filter(r => !r.isCorrect).length /
allResponses.length` in `generateRoadmap`, as an exact rational. (At the two
reachable history lengths, 10 and 15, the JavaScript double comparisons
against the literals 0.2/0.4/0.6 agree with the exact rational comparisons,
since those quotients round to the same doubles as the literals.) In both
models an empty history gives a rate that compares `false` against every
threshold: `0/0` is `NaN` in JavaScript and `0` here. -/
def errorRate (allResponses : List Response) : ℚ :=
  ((allResponses.filter fun r => !r.isCorrect).length : ℚ) / (allResponses.length : ℚ)

/-- The severity cascade in `generateRoadmap`:
`if (blockers.length >= 3 || errorRate > 0.6) severity = "severe"; else if
(blockers.length >= 2 || errorRate > 0.4) severity = "moderate"; else if
(blockers.length >= 1 || errorRate > 0.2) severity = "mild";` with initial
value `"none"`. -/
def computeSeverity (blockers : List Blocker) (allResponses : List Response) : Severity :=
  if blockers.length ≥ 3 ∨ errorRate allResponses > 0.6 then .severe
  else if blockers.length ≥ 2 ∨ errorRate allResponses > 0.4 then .moderate
  else if blockers.length ≥ 1 ∨ errorRate allResponses > 0.2 then .mild
  else .none

/-- Second severity definition, written from the specification's words for
refinement comparison (§4.3): "Decision table, evaluated top-to-bottom, first
match wins: blockerCount ≥ 3 OR errorRate > 0.6 → severe; blockerCount ≥ 2 OR
errorRate > 0.4 → moderate; blockerCount ≥ 1 OR errorRate > 0.2 → mild;
otherwise none". -/
def severityTableSpec (blockerCount : Nat) (rate : ℚ) : Severity :=
  if blockerCount ≥ 3 ∨ rate > 0.6 then .severe
  else if blockerCount ≥ 2 ∨ rate > 0.4 then .moderate
  else if blockerCount ≥ 1 ∨ rate > 0.2 then .mild
  else .none

section ListLemmas

/-- Membership is invariant under first-occurrence deduplication. -/
theorem mem_dedupFirst {c : String} : ∀ {l : List String}, c ∈ dedupFirst l ↔ c ∈ l := by
  intro l
  induction l with
  | nil => simp [dedupFirst]
  | cons a as ih =>
    by_cases h : c = a
    · subst h; simp [dedupFirst]
    · simp [dedupFirst, List.mem_filter, h, ih, bne_iff_ne]

/-- Filtering commutes with first-occurrence deduplication. -/
theorem filter_dedupFirst (p : String → Bool) :
    ∀ l : List String, (dedupFirst l).filter p = dedupFirst (l.filter p) := by
  intro l
  induction l with
  | nil => rfl
  | cons a as ih =>
    by_cases h : p a
    · show ((a :: ((dedupFirst as).filter fun x => x != a)).filter p)
        = dedupFirst ((a :: as).filter p)
      rw [List.filter_cons_of_pos h, List.filter_cons_of_pos h]
      show a :: (((dedupFirst as).filter fun x => x != a).filter p)
        = a :: ((dedupFirst (as.filter p)).filter fun x => x != a)
      rw [← ih, List.filter_filter, List.filter_filter]
      exact congrArg _ (List.filter_congr fun x _ => Bool.and_comm _ _)
    · have hb : p a = false := by simpa using h
      show ((a :: ((dedupFirst as).filter fun x => x != a)).filter p)
        = dedupFirst ((a :: as).filter p)
      rw [List.filter_cons_of_neg h, List.filter_cons_of_neg h, ← ih, List.filter_filter]
      refine List.filter_congr fun x _ => ?_
      by_cases hx : x = a
      · subst hx
        simp [hb]
      · simp [hx]

/-- The head survives first-occurrence deduplication. -/
theorem head?_dedupFirst : ∀ l : List String, (dedupFirst l).head? = l.head? := by
  intro l
  cases l <;> rfl

/-- The head of a filtered list is the first element satisfying the filter. -/
theorem filter_head?_eq_find? {α : Type} (p : α → Bool) :
    ∀ l : List α, (l.filter p).head? = l.find? p := by
  intro l
  induction l with
  | nil => rfl
  | cons a as ih =>
    by_cases h : p a
    · simp [List.filter_cons, List.find?_cons, h]
    · have hb : p a = false := by simpa using h
      simp [List.filter_cons, List.find?_cons, hb, ih]

/-- Searching a mapped list searches the original through the map. -/
theorem find?_map' {α β : Type} (f : α → β) (p : β → Bool) :
    ∀ l : List α, (l.map f).find? p = (l.find? fun a => p (f a)).map f := by
  intro l
  induction l with
  | nil => rfl
  | cons a as ih =>
    by_cases h : p (f a)
    · simp [List.find?_cons, h]
    · have hb : p (f a) = false := by simpa using h
      simp [List.find?_cons, hb, ih]

/-- Searching a filtered list searches the original under the conjunction. -/
theorem find?_filter' {α : Type} (p q : α → Bool) :
    ∀ l : List α, (l.filter q).find? p = l.find? fun a => q a && p a := by
  intro l
  induction l with
  | nil => rfl
  | cons a as ih =>
    by_cases hq : q a
    · by_cases hp : p a
      · simp [List.filter_cons, List.find?_cons, hq, hp]
      · have hpb : p a = false := by simpa using hp
        simp [List.filter_cons, List.find?_cons, hq, hpb, ih]
    · have hqb : q a = false := by simpa using hq
      simp [List.filter_cons, List.find?_cons, hqb, ih]

end ListLemmas

/-- A construct appears among the error keys iff it has at least one
incorrect response. -/
theorem mem_errConstructs {rs : List Response} {c : String} :
    c ∈ errConstructs rs ↔ 1 ≤ errCount rs c := by
  unfold errConstructs errCount
  rw [mem_dedupFirst]
  constructor
  · intro h
    obtain ⟨r, hr, hrc⟩ := List.mem_map.mp h
    have hr' := List.mem_filter.mp hr
    have : r ∈ rs.filter fun x => !x.isCorrect && x.construct == c := by
      refine List.mem_filter.mpr ⟨hr'.1, ?_⟩
      simp [hr'.2, hrc]
    have hpos : 0 < (rs.filter fun x => !x.isCorrect && x.construct == c).length :=
      List.length_pos.mpr (List.ne_nil_of_mem this)
    omega
  · intro h
    have hpos : 0 < (rs.filter fun x => !x.isCorrect && x.construct == c).length := by omega
    obtain ⟨r, hr⟩ := List.exists_mem_of_length_pos hpos
    have hr' := List.mem_filter.mp hr
    have h1 : (!r.isCorrect) = true := by
      have := hr'.2
      simp only [Bool.and_eq_true] at this
      exact this.1
    have h2 : r.construct = c := by
      have := hr'.2
      simp only [Bool.and_eq_true, beq_iff_eq] at this
      exact this.2
    exact List.mem_map.mpr ⟨r, List.mem_filter.mpr ⟨hr'.1, h1⟩, h2⟩

/-- Characterization of membership in the detected blocker list. -/
theorem mem_detectBlockersPure {rs : List Response} {b : Blocker} :
    b ∈ detectBlockersPure rs ↔
      2 ≤ errCount rs b.blocker_name ∧ b.error_count = errCount rs b.blocker_name := by
  unfold detectBlockersPure
  constructor
  · intro h
    obtain ⟨c, hc, hb⟩ := List.mem_map.mp h
    have hc' := List.mem_filter.mp hc
    have h2 : 2 ≤ errCount rs c := by simpa using hc'.2
    subst hb
    exact ⟨h2, rfl⟩
  · rintro ⟨h2, he⟩
    refine List.mem_map.mpr ⟨b.blocker_name, ?_, ?_⟩
    · refine List.mem_filter.mpr ⟨mem_errConstructs.mpr (by omega), by simpa using h2⟩
    · cases b
      simp_all

/-- The head of the detected blocker list is named after the first incorrect
response whose construct reached the promotion threshold. -/
theorem head?_detectBlockersPure (rs : List Response) :
    ((detectBlockersPure rs).head?.map fun b => b.blocker_name)
      = ((rs.find? fun r => !r.isCorrect && decide (2 ≤ errCount rs r.construct)).map
          fun r => r.construct) := by
  unfold detectBlockersPure errConstructs
  rw [List.head?_map, Option.map_map, filter_dedupFirst, head?_dedupFirst,
      filter_head?_eq_find?, find?_map', find?_filter']
  rw [Option.map_map]
  rfl

/-- C1: for every sequence of responses, blocker detection promotes exactly
the constructs with at least 2 incorrect responses, each promoted blocker's
`error_count` is that construct's incorrect-response count, every inserted
`blockers_detected` row carries `is_confirmed = false`, and a construct with
exactly 1 incorrect response is never promoted. -/
theorem C1_blocker_detection (rs : List Response) (c : String) :
    ((∃ b ∈ detectBlockersPure rs, b.blocker_name = c) ↔ 2 ≤ errCount rs c)
    ∧ (∀ b ∈ detectBlockersPure rs, b.error_count = errCount rs b.blocker_name)
    ∧ (∀ tid, ∀ row ∈ blockerInsertRows tid (detectBlockersPure rs),
        row.is_confirmed = false)
    ∧ (errCount rs c = 1 → ¬∃ b ∈ detectBlockersPure rs, b.blocker_name = c) := by
  have key : ∀ b : Blocker, b ∈ detectBlockersPure rs →
      2 ≤ errCount rs b.blocker_name ∧ b.error_count = errCount rs b.blocker_name :=
    fun b hb => mem_detectBlockersPure.mp hb
  refine ⟨⟨?_, ?_⟩, ?_, ?_, ?_⟩
  · rintro ⟨b, hb, hbc⟩
    have := (key b hb).1
    rwa [hbc] at this
  · intro h2
    exact ⟨⟨c, errCount rs c⟩, mem_detectBlockersPure.mpr ⟨h2, rfl⟩, rfl⟩
  · exact fun b hb => (key b hb).2
  · intro tid row hrow
    obtain ⟨b, _, hb⟩ := List.mem_map.mp hrow
    rw [← hb]
  · rintro h1 ⟨b, hb, hbc⟩
    have := (key b hb).1
    rw [hbc, h1] at this
    omega

/-- Concrete response maker used by the example inputs below. -/
def mkResp (c : String) (ok : Bool) : Response :=
  { questionNumber := 0, questionText := "q", userAnswer := "a", correctAnswer := "a",
    isCorrect := ok, construct := c, difficultyLevel := 1 }

/-- The spec's example batch: "Number Sense" has 3 incorrect and 1 correct
response, "Place Value" has exactly 1 incorrect response. -/
def exRespsC1 : List Response :=
  [mkResp "Number Sense" false, mkResp "Number Sense" false, mkResp "Number Sense" false,
   mkResp "Number Sense" true, mkResp "Place Value" false]

/-- Witness for C1 on the spec's example batch. -/
theorem C1_blocker_detection_witness :
    (∃ b ∈ detectBlockersPure exRespsC1, b.blocker_name = "Number Sense")
    ∧ ¬∃ b ∈ detectBlockersPure exRespsC1, b.blocker_name = "Place Value" :=
  ⟨(C1_blocker_detection exRespsC1 "Number Sense").1.mpr (by decide),
   (C1_blocker_detection exRespsC1 "Place Value").2.2.2 (by decide)⟩

/-- C2: on a non-empty response history the computed severity agrees with the
spec's decision table (top-to-bottom, first match wins), and in particular one
blocker with an error rate of exactly 0.4 yields `mild`. -/
theorem C2_severity_table (bs : List Blocker) (rs : List Response) (_h : rs ≠ []) :
    computeSeverity bs rs = severityTableSpec bs.length (errorRate rs)
    ∧ (bs.length = 1 → errorRate rs = 0.4 → computeSeverity bs rs = .mild) := by
  constructor
  · rfl
  · intro h1 h2
    unfold computeSeverity
    rw [h1, h2]
    norm_num

/-- The spec's scenario for C2: 15 responses, 6 incorrect, error rate 6/15 = 0.4. -/
def exRespsC2 : List Response :=
  List.replicate 6 (mkResp "Working Memory" false)
    ++ List.replicate 9 (mkResp "Working Memory" true)

/-- The example error rate is exactly 0.4. -/
theorem errorRate_exRespsC2 : errorRate exRespsC2 = 0.4 := by
  unfold errorRate exRespsC2 mkResp
  norm_num

/-- Witness for C2: one blocker and error rate exactly 0.4 give `mild`. -/
theorem C2_severity_table_witness :
    computeSeverity [⟨"Working Memory", 4⟩] exRespsC2 = .mild ∧ errorRate exRespsC2 = 0.4 :=
  ⟨(C2_severity_table [⟨"Working Memory", 4⟩] exRespsC2 (by decide)).2 rfl
      errorRate_exRespsC2,
   errorRate_exRespsC2⟩

/-- C4 counterexample: the code does not trim the reference answer, so a
string that is its own reference answer but carries leading whitespace
evaluates to `false`, refuting "evaluating a against itself is true regardless
of surrounding whitespace on either side". -/
theorem C4_counterexample : evaluateAnswer " 5" " 5" = false := by decide

/-- C4 (amended): evaluation trims and case-folds the student answer but only
case-folds (never trims) the reference answer, then tests exact equality;
hence evaluating `a` against itself is true for every `a` without
leading/trailing whitespace, regardless of case. -/
theorem C4_answer_evaluation (a : String) (h : jsTrim a = a) :
    evaluateAnswer a a = true := by
  unfold evaluateAnswer
  rw [h]
  exact beq_self_eq_true _

/-- Witness for the amended C4 on a mixed-case answer. -/
theorem C4_answer_evaluation_witness : evaluateAnswer "AbC" "AbC" = true :=
  C4_answer_evaluation "AbC" (by decide)

/-- Outcome of a single Supabase insert/update, as the client observes it:
`{ data, error }` with a thrown/`throw`n error on `error`. -/
inductive DbResult (α : Type) where
  | ok (a : α)
  | err (msg : String)
deriving DecidableEq, Repr

/-- Outcome of the `generate-question` fetch as observed by
`handleStudentInfoSubmit`: a 429 status, another non-ok status, an
unparseable body (`response.json()` throws), a JSON array of questions, or a
non-array JSON value (which the code wraps into a one-element array via
`Array.isArray`). -/
inductive BatchResult where
  | rateLimited
  | httpError
  | parseError
  | okList (qs : List Question)
  | okScalar (q : Question)
deriving DecidableEq, Repr

/-- Outcome of the `generate-confirmatory-test` fetch as observed by
`detectBlockers`. A non-array body makes the spread `[...questions,
...confirmatoryQuestions]` throw, which the surrounding catch folds into the
same path as an unparseable body, so it is modelled as `parseError`. -/
inductive ConfBatchResult where
  | rateLimited
  | httpError
  | parseError
  | okList (qs : List Question)
deriving DecidableEq, Repr

/-- Outcome of the `generate-roadmap` fetch as observed by `generateRoadmap`. -/
inductive RoadmapResult where
  | rateLimited
  | httpError
  | parseError
  | ok (data : RoadmapData)
deriving DecidableEq, Repr

/-- Oracle for the external interactions of `handleStudentInfoSubmit`:
the auth session lookup, the `students` insert, the `diagnostic_tests`
insert, and the question-batch fetch. -/
structure EnrollOracle where
  hasSession : Bool
  studentInsert : DbResult Nat
  testInsert : DbResult Nat
  batch : BatchResult
deriving DecidableEq, Repr

/-- Oracle for the external interactions reachable from
`handleAnswerSubmit`: the `test_responses` insert (`saveResponses`), the
`blockers_detected` insert and the confirmatory fetch (`detectBlockers`), and
the roadmap fetch plus the three writes of `generateRoadmap`. -/
structure AnswerOracle where
  saveResp : DbResult Unit
  blockerInsert : DbResult Unit
  confBatch : ConfBatchResult
  roadmapFetch : RoadmapResult
  roadmapInsert : DbResult Unit
  testUpdate : DbResult Unit
  blockerUpdate : DbResult Unit
deriving DecidableEq, Repr

/-- Observable events a handler emits: committed database writes, outgoing
requests, user-facing toasts, console logs, and the auth redirect. A database
write event is emitted only when the corresponding insert/update succeeded. -/
inductive Event where
  | dbInsertStudent (name : String) (age : Int)
  | dbInsertTest (studentId : Nat) (age : Int)
  | dbInsertResponses (testId : Nat) (rows : List Response)
  | dbInsertBlockers (rows : List BlockerRow)
  | dbInsertRoadmap (testId : Nat) (data : RoadmapData)
  | dbUpdateTestCompleted (testId : Nat) (severity : Severity)
  | dbUpdateBlockersConfirmed (testId : Nat)
  | reqMainBatch (age : Int) (count : Nat)
  | reqConfirmatory (age : Int) (blockerName : String)
  | reqRoadmap (age : Int) (blockers : List Blocker) (responses : List Response)
  | toast (title : String)
  | consoleError (msg : String)
  | navigateAuth
deriving DecidableEq, Repr

/-- The component state of `Diagnostic`: one field per `useState` hook. -/
structure DiagState where
  stage : Stage
  age : Option Int
  studentName : String
  studentId : Option Nat
  testId : Option Nat
  currentQuestion : Nat
  questions : List Question
  responses : List Response
  userAnswer : String
  loading : Bool
  blockers : List Blocker
  roadmap : Option RoadmapData
deriving DecidableEq, Repr

/-- The initial hook values of the component. -/
def initState : DiagState where
  stage := .age
  age := none
  studentName := ""
  studentId := none
  testId := none
  currentQuestion := 0
  questions := []
  responses := []
  userAnswer := ""
  loading := false
  blockers := []
  roadmap := none

/-- `handleAgeSubmit`: `if (!age || age < 5)` re-prompts with a toast,
otherwise the stage advances to `student-info`. (`!age` also rejects the
falsy `0` and `NaN`, both of which the model folds into `none` or a value
below 5.) -/
def handleAgeSubmit (st : DiagState) : DiagState × List Event :=
  match st.age with
  | none => (st, [.toast "Invalid Age"])
  | some a =>
    if a < 5 then (st, [.toast "Invalid Age"])
    else ({ st with stage := .studentInfo }, [])

/-- `handleStudentInfoSubmit`: create the student row, create the diagnostic
test row, fetch all 10 main-test questions at once, and enter `main-test`.
The student and test inserts (and the corresponding `setStudentId` /
`setTestId`) happen before the fetch; a 429 or failed fetch therefore leaves
the stage unchanged but keeps those ids. The non-null assertion `age!` is
modelled by `Option.getD 0`. -/
def handleStudentInfoSubmit (st : DiagState) (o : EnrollOracle) : DiagState × List Event :=
  if jsTrim st.studentName == "" then (st, [.toast "Missing Name"])
  else if o.hasSession = false then
    ({ st with loading := false }, [.toast "Not Authenticated", .navigateAuth])
  else
    match o.studentInsert with
    | .err _ => ({ st with loading := false }, [.toast "Error"])
    | .ok sid =>
      match o.testInsert with
      | .err _ =>
        ({ st with studentId := some sid, loading := false },
         [.dbInsertStudent st.studentName (st.age.getD 0), .toast "Error"])
      | .ok tid =>
        let evs := [Event.dbInsertStudent st.studentName (st.age.getD 0),
                    Event.dbInsertTest sid (st.age.getD 0),
                    Event.reqMainBatch (st.age.getD 0) 10]
        match o.batch with
        | .rateLimited =>
          ({ st with studentId := some sid, testId := some tid, loading := false },
           evs ++ [.toast "Rate Limit Exceeded"])
        | .httpError =>
          ({ st with studentId := some sid, testId := some tid, loading := false },
           evs ++ [.toast "Error"])
        | .parseError =>
          ({ st with studentId := some sid, testId := some tid, loading := false },
           evs ++ [.toast "Error"])
        | .okList qs =>
          ({ st with studentId := some sid, testId := some tid,
                     questions := qs, stage := .mainTest, loading := false }, evs)
        | .okScalar q =>
          ({ st with studentId := some sid, testId := some tid,
                     questions := [q], stage := .mainTest, loading := false }, evs)

/-- `saveResponses`: `if (!testId) return;` silently; a failed insert is
caught and only logged with `console.error`. The function never changes the
component state. -/
def saveResponses (st : DiagState) (dbr : DbResult Unit) (responsesToSave : List Response) :
    List Event :=
  match st.testId with
  | none => []
  | some tid =>
    match dbr with
    | .ok _ => [.dbInsertResponses tid responsesToSave]
    | .err _ => [.consoleError "Error saving responses"]

/-- `generateRoadmap`: fetch the roadmap, store it, insert the
`remediation_roadmaps` row, compute the severity over the entire response
history together with the current `blockers` state, mark the test completed,
stamp all of the session's blocker rows `is_confirmed = true` when any
blockers exist, and enter the `roadmap` stage. Every thrown error is caught
by the surrounding catch (toast only); a 429 returns early with a dedicated
toast. -/
def runGenerateRoadmap (st : DiagState) (allResponses : List Response) (o : AnswerOracle) :
    DiagState × List Event :=
  let req := [Event.reqRoadmap (st.age.getD 0) st.blockers allResponses]
  match o.roadmapFetch with
  | .rateLimited => ({ st with loading := false }, req ++ [.toast "Rate Limit Exceeded"])
  | .httpError => ({ st with loading := false }, req ++ [.toast "Error"])
  | .parseError => ({ st with loading := false }, req ++ [.toast "Error"])
  | .ok data =>
    match st.testId with
    | none =>
      ({ st with roadmap := some data, stage := .roadmap, loading := false },
       req ++ [.toast "Assessment Complete!"])
    | some tid =>
      match o.roadmapInsert with
      | .err _ =>
        ({ st with roadmap := some data, loading := false }, req ++ [.toast "Error"])
      | .ok _ =>
        let sev := computeSeverity st.blockers allResponses
        match o.testUpdate with
        | .err _ =>
          ({ st with roadmap := some data, loading := false },
           req ++ [.dbInsertRoadmap tid data, .toast "Error"])
        | .ok _ =>
          if st.blockers.length > 0 then
            match o.blockerUpdate with
            | .err _ =>
              ({ st with roadmap := some data, loading := false },
               req ++ [.dbInsertRoadmap tid data, .dbUpdateTestCompleted tid sev,
                       .toast "Error"])
            | .ok _ =>
              ({ st with roadmap := some data, stage := .roadmap, loading := false },
               req ++ [.dbInsertRoadmap tid data, .dbUpdateTestCompleted tid sev,
                       .dbUpdateBlockersConfirmed tid, .toast "Assessment Complete!"])
          else
            ({ st with roadmap := some data, stage := .roadmap, loading := false },
             req ++ [.dbInsertRoadmap tid data, .dbUpdateTestCompleted tid sev,
                     .toast "Assessment Complete!"])

/-- `detectBlockers`: run the pure detection; with no blockers, go straight
to `generateRoadmap`; otherwise store the blockers, insert the
`blockers_detected` rows (failure caught and logged only), fetch all
confirmatory questions keyed on `detectedBlockers[0].blocker_name`, append
them to the queue, move the cursor to `allResponses.length` and enter
`confirmatory`. -/
def runDetectBlockers (st : DiagState) (allResponses : List Response) (o : AnswerOracle) :
    DiagState × List Event :=
  match detectBlockersPure allResponses with
  | [] => runGenerateRoadmap st allResponses o
  | b0 :: rest =>
    let detected := b0 :: rest
    let st1 := { st with blockers := detected }
    let evs1 : List Event :=
      match st1.testId with
      | none => []
      | some tid =>
        match o.blockerInsert with
        | .ok _ => [.dbInsertBlockers (blockerInsertRows tid detected)]
        | .err _ => [.consoleError "Error saving blockers"]
    let evs2 := evs1 ++ [Event.reqConfirmatory (st1.age.getD 0) b0.blocker_name]
    match o.confBatch with
    | .rateLimited => ({ st1 with loading := false }, evs2 ++ [.toast "Rate Limit Exceeded"])
    | .httpError => ({ st1 with loading := false }, evs2 ++ [.toast "Error"])
    | .parseError => ({ st1 with loading := false }, evs2 ++ [.toast "Error"])
    | .okList qs =>
      ({ st1 with questions := st1.questions ++ qs,
                  currentQuestion := allResponses.length,
                  stage := .confirmatory, loading := false },
       evs2 ++ [.toast "Blocker Detected"])

/-- `handleAnswerSubmit`: reject a whitespace-only answer with a toast; read
`questions[currentQuestion]` with no bounds check (an out-of-range read
dereferences `undefined.correctAnswer` and throws, modelled as `none`); build
the response; at `responses.length === 10` in `main-test` persist the batch
and run blocker detection; at 15 in `confirmatory` persist the confirmatory
slice and generate the roadmap; otherwise advance the cursor. -/
def handleAnswerSubmit (st : DiagState) (o : AnswerOracle) :
    Option (DiagState × List Event) :=
  if jsTrim st.userAnswer == "" then some (st, [.toast "Missing Answer"])
  else
    match st.questions[st.currentQuestion]? with
    | none => none
    | some question =>
      let response : Response :=
        { questionNumber := st.currentQuestion + 1
          questionText := question.questionText
          userAnswer := st.userAnswer
          correctAnswer := question.correctAnswer
          isCorrect := evaluateAnswer st.userAnswer question.correctAnswer
          construct := question.construct
          difficultyLevel := question.difficultyLevel }
      let newResponses := st.responses ++ [response]
      let st1 := { st with responses := newResponses, userAnswer := "" }
      if st.stage = .mainTest ∧ newResponses.length = MAIN_TEST_LENGTH then
        let evs := saveResponses st1 o.saveResp (newResponses.take MAIN_TEST_LENGTH)
        let r := runDetectBlockers st1 newResponses o
        some (r.1, evs ++ r.2)
      else if st.stage = .confirmatory ∧
          newResponses.length = MAIN_TEST_LENGTH + CONFIRMATORY_LENGTH then
        let evs := saveResponses st1 o.saveResp (newResponses.drop MAIN_TEST_LENGTH)
        let r := runGenerateRoadmap st1 newResponses o
        some (r.1, evs ++ r.2)
      else
        some ({ st1 with currentQuestion := st.currentQuestion + 1 }, [])

/-- The externally stored rows the events act on. -/
structure Db where
  blockerRows : List BlockerRow
  completedTests : List (Nat × Severity)
  roadmapRows : List (Nat × RoadmapData)
  responseRows : List (Nat × List Response)
deriving DecidableEq, Repr

/-- Effect of one committed write on the store. `dbUpdateBlockersConfirmed`
is the SQL `update blockers_detected set is_confirmed = true where test_id =
tid`: it touches every blocker row of the session. -/
def applyEvent (db : Db) : Event → Db
  | .dbInsertBlockers rows => { db with blockerRows := db.blockerRows ++ rows }
  | .dbUpdateBlockersConfirmed tid =>
    { db with blockerRows := db.blockerRows.map fun row =>
        if row.test_id = tid then { row with is_confirmed := true } else row }
  | .dbUpdateTestCompleted tid sev =>
    { db with completedTests := db.completedTests ++ [(tid, sev)] }
  | .dbInsertRoadmap tid data => { db with roadmapRows := db.roadmapRows ++ [(tid, data)] }
  | .dbInsertResponses tid rows => { db with responseRows := db.responseRows ++ [(tid, rows)] }
  | _ => db

/-- Replay a list of events against the store. -/
def applyEvents (db : Db) (evs : List Event) : Db :=
  evs.foldl applyEvent db

/-- The blocker names carried by `reqConfirmatory` requests among a list of
events. -/
def confirmatoryRequests (evs : List Event) : List String :=
  evs.filterMap fun e =>
    match e with
    | .reqConfirmatory _ name => some name
    | _ => none

/-- One user interaction with the rendered component. Each handler fires only
in the stage whose markup renders its control: the age form in `age`, the
name form in `student-info`, the answer form in `main-test`/`confirmatory`.
The `roadmap` stage renders no mutating control. External outcomes are drawn
from the oracle families `E` and `A`. -/
inductive Step (E : EnrollOracle → Prop) (A : AnswerOracle → Prop) :
    DiagState → DiagState → Prop where
  | inputAge (st : DiagState) (a : Option Int) (h : st.stage = .age) :
      Step E A st { st with age := a }
  | inputName (st : DiagState) (s : String) (h : st.stage = .studentInfo) :
      Step E A st { st with studentName := s }
  | inputAnswer (st : DiagState) (s : String)
      (h : st.stage = .mainTest ∨ st.stage = .confirmatory) :
      Step E A st { st with userAnswer := s }
  | ageSubmit (st : DiagState) (h : st.stage = .age) :
      Step E A st (handleAgeSubmit st).1
  | infoSubmit (st : DiagState) (o : EnrollOracle) (hE : E o) (h : st.stage = .studentInfo) :
      Step E A st (handleStudentInfoSubmit st o).1
  | answerSubmit (st st' : DiagState) (o : AnswerOracle) (hA : A o)
      (h : st.stage = .mainTest ∨ st.stage = .confirmatory)
      (hok : (handleAnswerSubmit st o).map Prod.fst = some st') :
      Step E A st st'

/-- States reachable from the initial render through interactions whose
external outcomes are drawn from `E` and `A`. -/
def Reachable (E : EnrollOracle → Prop) (A : AnswerOracle → Prop) (st : DiagState) : Prop :=
  Relation.ReflTransGen (Step E A) initState st

/-- `generateRoadmap` either leaves the stage untouched (on any failure) or
enters the `roadmap` stage; it never enters any other stage. -/
theorem runGenerateRoadmap_stage (st : DiagState) (rs : List Response) (o : AnswerOracle) :
    (runGenerateRoadmap st rs o).1.stage = st.stage
    ∨ (runGenerateRoadmap st rs o).1.stage = .roadmap := by
  obtain ⟨sr, bi, cb, rf, ri, tu, bu⟩ := o
  cases rf with
  | rateLimited => exact Or.inl rfl
  | httpError => exact Or.inl rfl
  | parseError => exact Or.inl rfl
  | ok data =>
    cases hti : st.testId with
    | none => simp [runGenerateRoadmap, hti]
    | some tid =>
      cases ri with
      | err m => simp [runGenerateRoadmap, hti]
      | ok u =>
        cases tu with
        | err m => simp [runGenerateRoadmap, hti]
        | ok u2 =>
          by_cases hbl : 0 < st.blockers.length
          · cases bu with
            | err m => simp [runGenerateRoadmap, hti, if_pos hbl]
            | ok u3 => simp [runGenerateRoadmap, hti, if_pos hbl]
          · simp [runGenerateRoadmap, hti, if_neg hbl]

/-- Any completed-test write emitted by `generateRoadmap` carries the
severity computed from the state's blockers and the full history. -/
theorem runGenerateRoadmap_completed_sev (st : DiagState) (rs : List Response)
    (o : AnswerOracle) (tid : Nat) (sev : Severity)
    (h : Event.dbUpdateTestCompleted tid sev ∈ (runGenerateRoadmap st rs o).2) :
    sev = computeSeverity st.blockers rs := by
  obtain ⟨sr, bi, cb, rf, ri, tu, bu⟩ := o
  cases rf with
  | rateLimited => simp [runGenerateRoadmap] at h
  | httpError => simp [runGenerateRoadmap] at h
  | parseError => simp [runGenerateRoadmap] at h
  | ok data =>
    cases hti : st.testId with
    | none => simp [runGenerateRoadmap, hti] at h
    | some tid2 =>
      cases ri with
      | err m => simp [runGenerateRoadmap, hti] at h
      | ok u =>
        cases tu with
        | err m => simp [runGenerateRoadmap, hti] at h
        | ok u2 =>
          by_cases hbl : 0 < st.blockers.length
          · cases bu with
            | err m =>
              simp [runGenerateRoadmap, hti, if_pos hbl] at h
              exact h.2
            | ok u3 =>
              simp [runGenerateRoadmap, hti, if_pos hbl] at h
              exact h.2
          · simp [runGenerateRoadmap, hti, if_neg hbl] at h
            exact h.2

/-- C5: whenever the main-test batch promotes at least one blocker, the
blocker name sent to `generate-confirmatory-test` is the construct of the
earliest incorrect response (in original response order) among the promoted
constructs — which is also the head of the detected blocker list — and it is
the only confirmatory request issued. -/
theorem C5_primary_blocker (st : DiagState) (rs : List Response) (o : AnswerOracle)
    (h : detectBlockersPure rs ≠ []) :
    ∃ r : Response,
      (rs.find? fun x => !x.isCorrect && decide (2 ≤ errCount rs x.construct)) = some r
      ∧ confirmatoryRequests (runDetectBlockers st rs o).2 = [r.construct]
      ∧ ((detectBlockersPure rs).head?.map fun b => b.blocker_name) = some r.construct := by
  obtain ⟨b0, rest, heq⟩ := List.exists_cons_of_ne_nil h
  have hh := head?_detectBlockersPure rs
  rw [heq] at hh
  simp only [List.head?_cons, Option.map_some'] at hh
  cases hfind : rs.find? fun x => !x.isCorrect && decide (2 ≤ errCount rs x.construct) with
  | none =>
    rw [hfind] at hh
    simp at hh
  | some r =>
    rw [hfind] at hh
    simp only [Option.map_some'] at hh
    have hbc : b0.blocker_name = r.construct := Option.some.inj hh
    refine ⟨r, rfl, ?_, ?_⟩
    · rw [← hbc]
      obtain ⟨sr, bi, cb, rf, ri, tu, bu⟩ := o
      cases hti : st.testId with
      | none =>
        cases cb <;> simp [runDetectBlockers, heq, hti, confirmatoryRequests]
      | some tid =>
        cases bi <;> cases cb <;> simp [runDetectBlockers, heq, hti, confirmatoryRequests]
    · rw [heq]
      simp only [List.head?_cons, Option.map_some']
      rw [hbc]

/-- A fixed question used by the concrete scenarios. -/
def exQ : Question :=
  { questionText := "q", correctAnswer := "x", construct := "c", difficultyLevel := 1 }

/-- An all-successful answer-stage oracle used by the concrete scenarios. -/
def exOracle : AnswerOracle :=
  { saveResp := .ok (), blockerInsert := .ok (), confBatch := .okList [exQ],
    roadmapFetch := .ok ⟨"rm"⟩, roadmapInsert := .ok (), testUpdate := .ok (),
    blockerUpdate := .ok () }

/-- A batch in which construct "A" errs first (2 errors) while construct "B"
collects the highest count (3 errors). -/
def exRespsC5 : List Response :=
  [mkResp "A" false, mkResp "B" false, mkResp "B" false, mkResp "B" false,
   mkResp "A" false]

/-- Witness for C5: the confirmatory request is keyed on "A", the earliest
erring promoted construct, not on the highest-count construct "B". -/
theorem C5_primary_blocker_witness :
    confirmatoryRequests (runDetectBlockers initState exRespsC5 exOracle).2 = ["A"] := by
  obtain ⟨r, hr, hreq, _⟩ :=
    C5_primary_blocker initState exRespsC5 exOracle (by decide)
  have h2 : (exRespsC5.find? fun x =>
      !x.isCorrect && decide (2 ≤ errCount exRespsC5 x.construct)) = some (mkResp "A" false) := by
    decide
  rw [h2] at hr
  have hre := Option.some.inj hr
  rw [← hre] at hreq
  exact hreq

/-- C3 (amended): when the main-test batch yields no blockers, blocker
detection tail-calls roadmap generation directly — the confirmatory stage is
skipped — and the severity stored on completion is determined purely by the
error rate (the decision table evaluated with blocker count 0); it can
therefore be any of the four levels, not only none or mild. -/
theorem C3_no_blockers_skip (st : DiagState) (rs : List Response) (o : AnswerOracle)
    (hd : detectBlockersPure rs = []) (hb : st.blockers = []) (hs : st.stage = .mainTest) :
    runDetectBlockers st rs o = runGenerateRoadmap st rs o
    ∧ (runDetectBlockers st rs o).1.stage ≠ .confirmatory
    ∧ ∀ tid sev, Event.dbUpdateTestCompleted tid sev ∈ (runDetectBlockers st rs o).2 →
        sev = severityTableSpec 0 (errorRate rs) := by
  have hrr : runDetectBlockers st rs o = runGenerateRoadmap st rs o := by
    unfold runDetectBlockers
    rw [hd]
  refine ⟨hrr, ?_, ?_⟩
  · rw [hrr]
    rcases runGenerateRoadmap_stage st rs o with h | h
    · rw [h, hs]
      decide
    · rw [h]
      decide
  · intro tid sev hmem
    rw [hrr] at hmem
    have hres := runGenerateRoadmap_completed_sev st rs o tid sev hmem
    rw [hb] at hres
    exact hres

/-- Ten main-test responses, 7 incorrect, each error in a distinct construct:
no construct reaches the promotion threshold, yet the error rate is 0.7. -/
def exRespsC3 : List Response :=
  [mkResp "c1" false, mkResp "c2" false, mkResp "c3" false, mkResp "c4" false,
   mkResp "c5" false, mkResp "c6" false, mkResp "c7" false,
   mkResp "c8" true, mkResp "c9" true, mkResp "c10" true]

/-- A main-test state with a created test row. -/
def stC3 : DiagState :=
  { initState with stage := .mainTest, testId := some 1, age := some 8 }

/-- The C3 batch has a 0.7 error rate. -/
theorem errorRate_exRespsC3 : errorRate exRespsC3 = 7 / 10 := by
  simp [errorRate, exRespsC3, mkResp]

/-- With no blockers the C3 batch still scores `severe`. -/
theorem computeSeverity_exRespsC3 : computeSeverity [] exRespsC3 = .severe := by
  unfold computeSeverity
  rw [errorRate_exRespsC3]
  norm_num

/-- Counterexample for C3: a session whose main-test batch yields an empty
blocker set (7 errors spread over 7 distinct constructs) skips the
confirmatory stage but completes with severity `severe`, not none/mild. -/
theorem C3_counterexample :
    detectBlockersPure exRespsC3 = []
    ∧ (runDetectBlockers stC3 exRespsC3 exOracle).1.stage = .roadmap
    ∧ Event.dbUpdateTestCompleted 1 .severe
        ∈ (runDetectBlockers stC3 exRespsC3 exOracle).2 := by
  have hd : detectBlockersPure exRespsC3 = [] := by decide
  refine ⟨hd, ?_, ?_⟩
  · unfold runDetectBlockers
    rw [hd]
    simp [runGenerateRoadmap, stC3, initState, exOracle]
  · unfold runDetectBlockers
    rw [hd]
    simp [runGenerateRoadmap, stC3, initState, exOracle, computeSeverity_exRespsC3]

/-- Witness for the amended C3 at the concrete empty-blocker batch. -/
theorem C3_no_blockers_skip_witness :
    runDetectBlockers stC3 exRespsC3 exOracle = runGenerateRoadmap stC3 exRespsC3 exOracle
    ∧ (runDetectBlockers stC3 exRespsC3 exOracle).1.stage ≠ .confirmatory :=
  ⟨(C3_no_blockers_skip stC3 exRespsC3 exOracle (by decide) rfl rfl).1,
   (C3_no_blockers_skip stC3 exRespsC3 exOracle (by decide) rfl rfl).2.1⟩

/-- An enrolled `student-info` state. -/
def stC7 : DiagState :=
  { initState with stage := .studentInfo, studentName := "Ann", age := some 8 }

/-- An enrollment oracle whose batch fetch succeeds but returns only 7
questions instead of the requested 10. -/
def oC7partial : EnrollOracle :=
  { hasSession := true, studentInsert := .ok 1, testInsert := .ok 1,
    batch := .okList (List.replicate 7 exQ) }

/-- Counterexample for C7: a partial batch (7 of the requested 10 questions)
is accepted — the session still enters `main-test`, with a short queue. -/
theorem C7_counterexample :
    (handleStudentInfoSubmit stC7 oC7partial).1.stage = .mainTest
    ∧ (handleStudentInfoSubmit stC7 oC7partial).1.questions.length = 7
    ∧ (handleStudentInfoSubmit stC7 oC7partial).1.questions.length ≠ MAIN_TEST_LENGTH := by
  decide

/-- C7 (amended): a rate-limited, failed or unparseable batch response leaves
the session in its prior stage with its question queue untouched; a parsed
response is accepted as-is, with no size validation — the stage is entered
with exactly the returned list as its queue, for both the main fetch
(requested count 10) and the confirmatory fetch (appended to the queue). -/
theorem C7_batch_acceptance (st : DiagState) (o : EnrollOracle)
    (hname : jsTrim st.studentName ≠ "") (hs : o.hasSession = true) :
    ((o.batch = .rateLimited ∨ o.batch = .httpError ∨ o.batch = .parseError) →
      (handleStudentInfoSubmit st o).1.stage = st.stage
      ∧ (handleStudentInfoSubmit st o).1.questions = st.questions)
    ∧ (∀ qs sid tid, o.studentInsert = .ok sid → o.testInsert = .ok tid →
        o.batch = .okList qs →
        (handleStudentInfoSubmit st o).1.stage = .mainTest
        ∧ (handleStudentInfoSubmit st o).1.questions = qs
        ∧ Event.reqMainBatch (st.age.getD 0) 10 ∈ (handleStudentInfoSubmit st o).2)
    ∧ (∀ (rs : List Response) (a : AnswerOracle) (qs : List Question),
        detectBlockersPure rs ≠ [] → a.confBatch = .okList qs →
        (runDetectBlockers st rs a).1.stage = .confirmatory
        ∧ (runDetectBlockers st rs a).1.questions = st.questions ++ qs) := by
  have hbeq : (jsTrim st.studentName == "") = false := beq_eq_false_iff_ne.mpr hname
  refine ⟨?_, ?_, ?_⟩
  · rintro (hb | hb | hb) <;>
      cases hsi : o.studentInsert <;> cases hti : o.testInsert <;>
        simp [handleStudentInfoSubmit, hbeq, hs, hsi, hti, hb]
  · rintro qs sid tid ha hb hc
    simp [handleStudentInfoSubmit, hbeq, hs, ha, hb, hc]
  · rintro rs a qs hne hcb
    obtain ⟨b0, rest, heq⟩ := List.exists_cons_of_ne_nil hne
    cases hti2 : st.testId <;> cases hbi : a.blockerInsert <;>
      simp [runDetectBlockers, heq, hcb, hti2, hbi]

/-- An enrollment oracle returning a full batch of 10 questions. -/
def oC7full : EnrollOracle :=
  { hasSession := true, studentInsert := .ok 1, testInsert := .ok 1,
    batch := .okList (List.replicate 10 exQ) }

/-- Witness for the amended C7: a parsed batch is installed verbatim. -/
theorem C7_batch_acceptance_witness :
    (handleStudentInfoSubmit stC7 oC7full).1.stage = .mainTest
    ∧ (handleStudentInfoSubmit stC7 oC7full).1.questions = List.replicate 10 exQ :=
  ⟨((C7_batch_acceptance stC7 oC7full (by decide) rfl).2.1
      (List.replicate 10 exQ) 1 1 rfl rfl rfl).1,
   ((C7_batch_acceptance stC7 oC7full (by decide) rfl).2.1
      (List.replicate 10 exQ) 1 1 rfl rfl rfl).2.1⟩

/-- An enrollment oracle whose batch fetch is rate limited. -/
def oC8 : EnrollOracle :=
  { hasSession := true, studentInsert := .ok 1, testInsert := .ok 1,
    batch := .rateLimited }

/-- Counterexample for C8: on a rate-limited batch fetch the stage indeed
does not advance, but the attempt has already committed the student row and
the diagnostic-test row — session data is committed by the failed attempt. -/
theorem C8_counterexample :
    (handleStudentInfoSubmit stC7 oC8).1.stage = stC7.stage
    ∧ Event.dbInsertStudent "Ann" 8 ∈ (handleStudentInfoSubmit stC7 oC8).2
    ∧ Event.dbInsertTest 1 8 ∈ (handleStudentInfoSubmit stC7 oC8).2 := by
  decide

/-- C8 (amended): a rate-limited batch fetch leaves the stage unchanged, and
retrying the transition with a successful oracle produces exactly the state
(and events) a first-time successful run would produce; however the failed
attempt does commit the student and test rows (see the counterexample). -/
theorem C8_rate_limited_retry (st : DiagState) (o1 o2 : EnrollOracle)
    (sid tid sid2 tid2 : Nat) (qs : List Question)
    (hname : jsTrim st.studentName ≠ "")
    (h1s : o1.hasSession = true) (h1a : o1.studentInsert = .ok sid)
    (h1b : o1.testInsert = .ok tid) (h1c : o1.batch = .rateLimited)
    (h2s : o2.hasSession = true) (h2a : o2.studentInsert = .ok sid2)
    (h2b : o2.testInsert = .ok tid2) (h2c : o2.batch = .okList qs) :
    (handleStudentInfoSubmit st o1).1.stage = st.stage
    ∧ handleStudentInfoSubmit (handleStudentInfoSubmit st o1).1 o2
        = handleStudentInfoSubmit st o2 := by
  have hbeq : (jsTrim st.studentName == "") = false := beq_eq_false_iff_ne.mpr hname
  constructor
  · simp [handleStudentInfoSubmit, hbeq, h1s, h1a, h1b, h1c]
  · simp [handleStudentInfoSubmit, hbeq, h1s, h1a, h1b, h1c, h2s, h2a, h2b, h2c]

/-- Witness for the amended C8 at concrete oracles. -/
theorem C8_rate_limited_retry_witness :
    (handleStudentInfoSubmit stC7 oC8).1.stage = stC7.stage
    ∧ handleStudentInfoSubmit (handleStudentInfoSubmit stC7 oC8).1 oC7full
        = handleStudentInfoSubmit stC7 oC7full :=
  C8_rate_limited_retry stC7 oC8 oC7full 1 1 1 1 (List.replicate 10 exQ)
    (by decide) rfl rfl rfl rfl rfl rfl rfl rfl

/-- `generateRoadmap` does not read the responses-insert, blockers-insert or
confirmatory-fetch outcomes. -/
theorem runGenerateRoadmap_oracle_eq (st : DiagState) (rs : List Response)
    (sr sr' bi bi' : DbResult Unit) (cb cb' : ConfBatchResult)
    (rf : RoadmapResult) (ri tu bu : DbResult Unit) :
    runGenerateRoadmap st rs ⟨sr, bi, cb, rf, ri, tu, bu⟩
      = runGenerateRoadmap st rs ⟨sr', bi', cb', rf, ri, tu, bu⟩ := by
  cases rf with
  | rateLimited => rfl
  | httpError => rfl
  | parseError => rfl
  | ok data =>
    cases hti : st.testId with
    | none => simp [runGenerateRoadmap, hti]
    | some tid =>
      cases ri with
      | err m => simp [runGenerateRoadmap, hti]
      | ok u =>
        cases tu with
        | err m => simp [runGenerateRoadmap, hti]
        | ok u2 =>
          by_cases hbl : 0 < st.blockers.length
          · cases bu <;> simp [runGenerateRoadmap, hti, if_pos hbl]
          · simp [runGenerateRoadmap, hti, if_neg hbl]

/-- `detectBlockers` does not read the responses-insert outcome. -/
theorem runDetectBlockers_oracle_eq (st : DiagState) (rs : List Response)
    (sr sr' bi : DbResult Unit) (cb : ConfBatchResult)
    (rf : RoadmapResult) (ri tu bu : DbResult Unit) :
    runDetectBlockers st rs ⟨sr, bi, cb, rf, ri, tu, bu⟩
      = runDetectBlockers st rs ⟨sr', bi, cb, rf, ri, tu, bu⟩ := by
  cases hd : detectBlockersPure rs with
  | nil =>
    unfold runDetectBlockers
    rw [hd]
    exact runGenerateRoadmap_oracle_eq st rs sr sr' bi bi cb cb rf ri tu bu
  | cons b0 rest =>
    cases hti : st.testId <;> cases bi <;> cases cb <;>
      simp [runDetectBlockers, hd, hti]

/-- C9 (amended): a failed `test_responses` insert never blocks the stage
transition — the resulting component state is identical to the state reached
when the insert succeeds, because `saveResponses` catches the error and only
logs it to the console, committing nothing and surfacing nothing. -/
theorem C9_persistence_not_blocking (st : DiagState) (o : AnswerOracle) (e : String) :
    ((handleAnswerSubmit st { o with saveResp := .err e }).map Prod.fst
      = (handleAnswerSubmit st o).map Prod.fst)
    ∧ (∀ tid rows, st.testId = some tid →
        saveResponses st (.err e) rows = [.consoleError "Error saving responses"]) := by
  obtain ⟨sr, bi, cb, rf, ri, tu, bu⟩ := o
  constructor
  · cases hta : jsTrim st.userAnswer == "" with
    | true => simp [handleAnswerSubmit, hta]
    | false =>
      cases hq : st.questions[st.currentQuestion]? with
      | none => simp [handleAnswerSubmit, hta, hq]
      | some q =>
        simp only [handleAnswerSubmit, hta, hq, Bool.false_eq_true, if_false]
        split
        · simp only [Option.map_some']
          rw [runDetectBlockers_oracle_eq]
        · split
          · simp only [Option.map_some']
            rw [runGenerateRoadmap_oracle_eq]
          · rfl
  · intro tid rows hti
    unfold saveResponses
    rw [hti]

/-- A main-test state one answer away from the stage boundary. -/
def stC9 : DiagState :=
  { initState with
    stage := .mainTest
    testId := some 1
    age := some 8
    questions := List.replicate 10 exQ
    responses := List.replicate 9 (mkResp "c" true)
    currentQuestion := 9
    userAnswer := "x" }

/-- An answer-stage oracle whose responses insert fails; everything else
succeeds. -/
def oC9 : AnswerOracle := { exOracle with saveResp := .err "db down" }

/-- Counterexample for C9: with the responses insert failing, the 10th
submission still advances the session all the way to `roadmap` (past
MainTest), and the persistence error surfaces only as a console log. -/
theorem C9_counterexample :
    ((handleAnswerSubmit stC9 oC9).map fun p => p.1.stage) = some Stage.roadmap
    ∧ ((handleAnswerSubmit stC9 oC9).map fun p =>
        decide (Event.consoleError "Error saving responses" ∈ p.2)) = some true := by
  constructor
  · decide
  · decide

/-- Witness for the amended C9 at a concrete state with a test row. -/
theorem C9_persistence_not_blocking_witness :
    saveResponses stC3 (.err "boom") [] = [.consoleError "Error saving responses"] :=
  (C9_persistence_not_blocking stC3 exOracle "boom").2 1 [] rfl

/-- `generateRoadmap` never inserts blocker rows. -/
theorem runGenerateRoadmap_no_blockerInsert (st : DiagState) (rs : List Response)
    (o : AnswerOracle) (rows : List BlockerRow) :
    Event.dbInsertBlockers rows ∉ (runGenerateRoadmap st rs o).2 := by
  obtain ⟨sr, bi, cb, rf, ri, tu, bu⟩ := o
  cases rf with
  | rateLimited => simp [runGenerateRoadmap]
  | httpError => simp [runGenerateRoadmap]
  | parseError => simp [runGenerateRoadmap]
  | ok data =>
    cases hti : st.testId with
    | none => simp [runGenerateRoadmap, hti]
    | some tid =>
      cases ri with
      | err m => simp [runGenerateRoadmap, hti]
      | ok u =>
        cases tu with
        | err m => simp [runGenerateRoadmap, hti]
        | ok u2 =>
          by_cases hbl : 0 < st.blockers.length
          · cases bu <;> simp [runGenerateRoadmap, hti, if_pos hbl]
          · simp [runGenerateRoadmap, hti, if_neg hbl]

/-- C6: when a session with a non-empty blocker set completes, the emitted
blocker update stamps every blocker row of that session `is_confirmed =
true` in the store (not only the primary one); the roadmap is attached and
the stage becomes `roadmap`; the computed severity is stored on the test
row; no interaction can change the completed state; and before completion,
blocker detection only ever inserts rows with `is_confirmed = false`. -/
theorem C6_completion (st : DiagState) (rs : List Response) (o : AnswerOracle)
    (db : Db) (tid : Nat) (data : RoadmapData)
    (hti : st.testId = some tid) (hb : st.blockers ≠ [])
    (hrf : o.roadmapFetch = .ok data) (hri : o.roadmapInsert = .ok ())
    (htu : o.testUpdate = .ok ()) (hbu : o.blockerUpdate = .ok ()) :
    (∀ row ∈ (applyEvents db (runGenerateRoadmap st rs o).2).blockerRows,
        row.test_id = tid → row.is_confirmed = true)
    ∧ (runGenerateRoadmap st rs o).1.roadmap = some data
    ∧ (runGenerateRoadmap st rs o).1.stage = .roadmap
    ∧ (tid, computeSeverity st.blockers rs)
        ∈ (applyEvents db (runGenerateRoadmap st rs o).2).completedTests
    ∧ (∀ (E : EnrollOracle → Prop) (A : AnswerOracle → Prop) (st' : DiagState),
        ¬ Step E A (runGenerateRoadmap st rs o).1 st')
    ∧ (∀ (st0 : DiagState) (rs0 : List Response) (o0 : AnswerOracle)
        (rows : List BlockerRow),
        Event.dbInsertBlockers rows ∈ (runDetectBlockers st0 rs0 o0).2 →
        ∀ row ∈ rows, row.is_confirmed = false) := by
  have hbl : 0 < st.blockers.length := List.length_pos.mpr hb
  obtain ⟨sr, bi, cb, rf, ri, tu, bu⟩ := o
  dsimp only at hrf hri htu hbu
  subst hrf hri htu hbu
  have hrun : runGenerateRoadmap st rs ⟨sr, bi, cb, .ok data, .ok (), .ok (), .ok ()⟩
      = ({ st with roadmap := some data, stage := .roadmap, loading := false },
         [Event.reqRoadmap (st.age.getD 0) st.blockers rs,
          Event.dbInsertRoadmap tid data,
          Event.dbUpdateTestCompleted tid (computeSeverity st.blockers rs),
          Event.dbUpdateBlockersConfirmed tid,
          Event.toast "Assessment Complete!"]) := by
    simp [runGenerateRoadmap, hti, if_pos hbl]
  rw [hrun]
  refine ⟨?_, rfl, rfl, ?_, ?_, ?_⟩
  · intro row hrow hrtid
    simp only [applyEvents, List.foldl, applyEvent] at hrow
    obtain ⟨row0, _, hmap⟩ := List.mem_map.mp hrow
    by_cases hcase : row0.test_id = tid
    · rw [if_pos hcase] at hmap
      rw [← hmap]
    · rw [if_neg hcase] at hmap
      rw [← hmap] at hrtid
      exact absurd hrtid hcase
  · simp [applyEvents, applyEvent]
  · intro E A st' hstep
    cases hstep with
    | inputAge a h => exact Stage.noConfusion h
    | inputName s h => exact Stage.noConfusion h
    | inputAnswer s h =>
      rcases h with h | h <;> exact Stage.noConfusion h
    | ageSubmit h => exact Stage.noConfusion h
    | infoSubmit o2 hE h => exact Stage.noConfusion h
    | answerSubmit st2 o2 hA h hok =>
      rcases h with h | h <;> exact Stage.noConfusion h
  · intro st0 rs0 o0 rows hmem row hrow
    revert hmem
    unfold runDetectBlockers
    cases hd : detectBlockersPure rs0 with
    | nil =>
      intro hmem
      exact absurd hmem (runGenerateRoadmap_no_blockerInsert st0 rs0 o0 rows)
    | cons b0 rest =>
      obtain ⟨sr0, bi0, cb0, rf0, ri0, tu0, bu0⟩ := o0
      cases hti0 : st0.testId with
      | none =>
        cases cb0 <;> intro hmem <;> simp [hti0] at hmem
      | some tid0 =>
        cases bi0 with
        | err m =>
          cases cb0 <;> intro hmem <;> simp [hti0] at hmem
        | ok u =>
          cases cb0 <;> intro hmem <;> simp [hti0] at hmem <;>
            · rw [hmem] at hrow
              obtain ⟨b, _, hbrow⟩ := List.mem_map.mp hrow
              rw [← hbrow]

/-- A confirmatory-stage state with one detected blocker and a test row. -/
def stC6 : DiagState :=
  { initState with
    stage := .confirmatory
    testId := some 1
    age := some 8
    blockers := [⟨"A", 2⟩] }

/-- A store holding the single blocker row inserted for this session. -/
def dbC6 : Db :=
  { blockerRows := [⟨1, "A", 2, false⟩], completedTests := [], roadmapRows := [],
    responseRows := [] }

/-- Witness for C6: at the concrete completing run the stage becomes
`roadmap`, every blocker row of the session ends up confirmed, and the
computed severity lands on the test row. -/
theorem C6_completion_witness :
    (runGenerateRoadmap stC6 exRespsC2 exOracle).1.stage = .roadmap
    ∧ (1, computeSeverity stC6.blockers exRespsC2)
        ∈ (applyEvents dbC6 (runGenerateRoadmap stC6 exRespsC2 exOracle).2).completedTests
    ∧ ∀ row ∈ (applyEvents dbC6 (runGenerateRoadmap stC6 exRespsC2 exOracle).2).blockerRows,
        row.test_id = 1 → row.is_confirmed = true :=
  ⟨(C6_completion stC6 exRespsC2 exOracle dbC6 1 ⟨"rm"⟩ rfl (by decide)
      rfl rfl rfl rfl).2.2.1,
   (C6_completion stC6 exRespsC2 exOracle dbC6 1 ⟨"rm"⟩ rfl (by decide)
      rfl rfl rfl rfl).2.2.2.1,
   (C6_completion stC6 exRespsC2 exOracle dbC6 1 ⟨"rm"⟩ rfl (by decide)
      rfl rfl rfl rfl).1⟩

/-- C10's stated precondition on the main-test fetch: a successful fetch
returns a JSON array of exactly the requested 10 questions. -/
def FullMainBatch (o : EnrollOracle) : Prop :=
  (∀ qs, o.batch = .okList qs → qs.length = MAIN_TEST_LENGTH)
  ∧ ∀ q, o.batch ≠ .okScalar q

/-- C10's stated precondition on the confirmatory fetch: a successful fetch
returns exactly the requested 5 questions. -/
def FullConfBatch (o : AnswerOracle) : Prop :=
  ∀ qs, o.confBatch = .okList qs → qs.length = CONFIRMATORY_LENGTH

/-- Strengthened oracle condition for the amended C10: stage-boundary
processing succeeds — the confirmatory fetch returns a full batch and
roadmap generation completes. -/
def BoundarySucceeds (o : AnswerOracle) : Prop :=
  (∃ qs, o.confBatch = .okList qs ∧ qs.length = CONFIRMATORY_LENGTH)
  ∧ (∃ d, o.roadmapFetch = .ok d)
  ∧ o.roadmapInsert = .ok () ∧ o.testUpdate = .ok () ∧ o.blockerUpdate = .ok ()

/-- The cursor/queue invariant of the state machine: before the tests the
queue is empty and the cursor at 0; during `main-test` the queue holds
exactly 10 questions and the cursor equals the response count, below 10;
during `confirmatory` the queue holds 15 and the cursor equals the response
count, in [10, 15). -/
def MachineInv (st : DiagState) : Prop :=
  ((st.stage = .age ∨ st.stage = .studentInfo) →
    st.questions = [] ∧ st.responses = [] ∧ st.currentQuestion = 0)
  ∧ (st.stage = .mainTest →
    st.questions.length = MAIN_TEST_LENGTH
    ∧ st.currentQuestion = st.responses.length
    ∧ st.responses.length < MAIN_TEST_LENGTH)
  ∧ (st.stage = .confirmatory →
    st.questions.length = MAIN_TEST_LENGTH + CONFIRMATORY_LENGTH
    ∧ st.currentQuestion = st.responses.length
    ∧ MAIN_TEST_LENGTH ≤ st.responses.length
    ∧ st.responses.length < MAIN_TEST_LENGTH + CONFIRMATORY_LENGTH)

/-- With a fully successful oracle, `generateRoadmap` always reaches the
`roadmap` stage. -/
theorem runGenerateRoadmap_success_stage (st : DiagState) (rs : List Response)
    (o : AnswerOracle) (d : RoadmapData)
    (hrf : o.roadmapFetch = .ok d) (hri : o.roadmapInsert = .ok ())
    (htu : o.testUpdate = .ok ()) (hbu : o.blockerUpdate = .ok ()) :
    (runGenerateRoadmap st rs o).1.stage = .roadmap := by
  obtain ⟨sr, bi, cb, rf, ri, tu, bu⟩ := o
  dsimp only at hrf hri htu hbu
  subst hrf hri htu hbu
  cases hti : st.testId with
  | none => simp [runGenerateRoadmap, hti]
  | some tid =>
    by_cases hbl : 0 < st.blockers.length
    · simp [runGenerateRoadmap, hti, if_pos hbl]
    · simp [runGenerateRoadmap, hti, if_neg hbl]

/-- Under a boundary-success oracle, the stage-completion run out of
`main-test` enters either `roadmap` (no blockers) or `confirmatory` with a
queue grown by exactly 5, the cursor at the response count, and the response
list untouched. -/
theorem boundary_step (st1 : DiagState) (rs : List Response) (o : AnswerOracle)
    (hb : BoundarySucceeds o) :
    (runDetectBlockers st1 rs o).1.stage = .roadmap
    ∨ ((runDetectBlockers st1 rs o).1.stage = .confirmatory
        ∧ (runDetectBlockers st1 rs o).1.questions.length
            = st1.questions.length + CONFIRMATORY_LENGTH
        ∧ (runDetectBlockers st1 rs o).1.currentQuestion = rs.length
        ∧ (runDetectBlockers st1 rs o).1.responses = st1.responses) := by
  obtain ⟨⟨qs, hcb, hlen⟩, ⟨d, hrf⟩, hri, htu, hbu⟩ := hb
  cases hd : detectBlockersPure rs with
  | nil =>
    left
    have hgen : runDetectBlockers st1 rs o = runGenerateRoadmap st1 rs o := by
      unfold runDetectBlockers
      rw [hd]
    rw [hgen]
    exact runGenerateRoadmap_success_stage st1 rs o d hrf hri htu hbu
  | cons b0 rest =>
    right
    cases hti : st1.testId with
    | none =>
      cases hbi : o.blockerInsert <;>
        simp [runDetectBlockers, hd, hcb, hti, hbi, hlen]
    | some tid =>
      cases hbi : o.blockerInsert <;>
        simp [runDetectBlockers, hd, hcb, hti, hbi, hlen]

/-- One interaction under full batches and successful boundary processing
preserves the cursor/queue invariant. -/
theorem MachineInv_preserved {st st' : DiagState}
    (hstep : Step FullMainBatch BoundarySucceeds st st') (hinv : MachineInv st) :
    MachineInv st' := by
  cases hstep with
  | inputAge a h => exact hinv
  | inputName s h => exact hinv
  | inputAnswer s h => exact hinv
  | ageSubmit h =>
    unfold handleAgeSubmit
    cases ha : st.age with
    | none => exact hinv
    | some a =>
      dsimp only
      by_cases h5 : a < 5
      · rw [if_pos h5]
        exact hinv
      · rw [if_neg h5]
        obtain ⟨hq0, hr0, hc0⟩ := hinv.1 (Or.inl h)
        exact ⟨fun _ => ⟨hq0, hr0, hc0⟩, fun hc => Stage.noConfusion hc,
               fun hc => Stage.noConfusion hc⟩
  | infoSubmit o hE h =>
    obtain ⟨hfull, hnoscalar⟩ := hE
    obtain ⟨hq0, hr0, hc0⟩ := hinv.1 (Or.inr h)
    unfold handleStudentInfoSubmit
    cases hname : jsTrim st.studentName == "" with
    | true => exact hinv
    | false =>
      cases hss : o.hasSession with
      | false => exact hinv
      | true =>
        cases hsi : o.studentInsert with
        | err m => exact hinv
        | ok sid =>
          cases hti2 : o.testInsert with
          | err m => exact hinv
          | ok tid =>
            cases hb2 : o.batch with
            | rateLimited => exact hinv
            | httpError => exact hinv
            | parseError => exact hinv
            | okScalar q => exact absurd hb2 (hnoscalar q)
            | okList qs =>
              have hlen := hfull qs hb2
              refine ⟨fun hc => ?_, fun _ => ⟨hlen, ?_, ?_⟩, fun hc => ?_⟩
              · rcases hc with hc | hc <;> exact Stage.noConfusion hc
              · show st.currentQuestion = st.responses.length
                rw [hc0, hr0]
                rfl
              · show st.responses.length < MAIN_TEST_LENGTH
                rw [hr0]
                decide
              · exact Stage.noConfusion hc
  | answerSubmit _x o hA h hok =>
    by_cases hname : (jsTrim st.userAnswer == "") = true
    · simp [handleAnswerSubmit, hname] at hok
      subst hok
      exact hinv
    · rw [Bool.not_eq_true] at hname
      simp only [handleAnswerSubmit, hname, Bool.false_eq_true, if_false] at hok
      cases hq : st.questions[st.currentQuestion]? with
      | none =>
        rw [hq] at hok
        exact Option.noConfusion hok
      | some q =>
        rw [hq] at hok
        dsimp only at hok
        split at hok
        next hmain =>
          simp only [Option.map_some', Option.some.injEq] at hok
          rw [← hok]
          rcases boundary_step _ _ o hA with hroad | ⟨hstage, hqlen, hcur, hresp⟩
          · refine ⟨fun hc => ?_, fun hc => ?_, fun hc => ?_⟩ <;> rw [hroad] at hc
            · rcases hc with hc | hc <;> exact Stage.noConfusion hc
            · exact Stage.noConfusion hc
            · exact Stage.noConfusion hc
          · obtain ⟨hql, hcq, hlt⟩ := hinv.2.1 hmain.1
            have hnr := hmain.2
            refine ⟨fun hc => ?_, fun hc => ?_, fun _ => ⟨?_, ?_, ?_, ?_⟩⟩
            · rw [hstage] at hc
              rcases hc with hc | hc <;> exact Stage.noConfusion hc
            · rw [hstage] at hc
              exact Stage.noConfusion hc
            · rw [hqlen]
              dsimp only
              omega
            · rw [hcur, hresp]
            · rw [hresp]
              dsimp only
              rw [hnr]
            · rw [hresp]
              dsimp only
              rw [hnr]
              decide
        next hnm =>
          split at hok
          next hconf =>
            simp only [Option.map_some', Option.some.injEq] at hok
            rw [← hok]
            obtain ⟨hcb5, ⟨d, hrf⟩, hri, htu, hbu⟩ := hA
            refine ⟨fun hc => ?_, fun hc => ?_, fun hc => ?_⟩ <;>
              rw [runGenerateRoadmap_success_stage _ _ o d hrf hri htu hbu] at hc
            · rcases hc with hc | hc <;> exact Stage.noConfusion hc
            · exact Stage.noConfusion hc
            · exact Stage.noConfusion hc
          next hnc =>
            simp only [Option.map_some', Option.some.injEq] at hok
            rw [← hok]
            rcases h with h1 | h1
            · obtain ⟨hql, hcq, hlt⟩ := hinv.2.1 h1
              have hne : ¬(st.responses.length + 1 = MAIN_TEST_LENGTH) := by
                intro hl
                exact hnm ⟨h1, by simpa using hl⟩
              refine ⟨fun hc => ?_, fun _ => ⟨hql, ?_, ?_⟩, fun hc => ?_⟩
              · dsimp only at hc
                rw [h1] at hc
                rcases hc with hc | hc <;> exact Stage.noConfusion hc
              · dsimp only
                simp [hcq]
              · dsimp only
                simp only [List.length_append, List.length_singleton]
                omega
              · dsimp only at hc
                rw [h1] at hc
                exact Stage.noConfusion hc
            · obtain ⟨hql, hcq, hge, hlt⟩ := hinv.2.2 h1
              have hne : ¬(st.responses.length + 1
                  = MAIN_TEST_LENGTH + CONFIRMATORY_LENGTH) := by
                intro hl
                exact hnc ⟨h1, by simpa using hl⟩
              refine ⟨fun hc => ?_, fun hc => ?_, fun _ => ⟨hql, ?_, ?_, ?_⟩⟩
              · dsimp only at hc
                rw [h1] at hc
                rcases hc with hc | hc <;> exact Stage.noConfusion hc
              · dsimp only at hc
                rw [h1] at hc
                exact Stage.noConfusion hc
              · dsimp only
                simp [hcq]
              · dsimp only
                simp only [List.length_append, List.length_singleton]
                omega
              · dsimp only
                simp only [List.length_append, List.length_singleton]
                omega

/-- Every state reachable under full batches and successful boundaries
satisfies the cursor/queue invariant. -/
theorem reachable_MachineInv (st : DiagState)
    (h : Reachable FullMainBatch BoundarySucceeds st) : MachineInv st := by
  induction h with
  | refl =>
    exact ⟨fun _ => ⟨rfl, rfl, rfl⟩, fun hc => Stage.noConfusion hc,
           fun hc => Stage.noConfusion hc⟩
  | tail hsteps hstep ih => exact MachineInv_preserved hstep ih

/-- C10 (amended): under the precondition that every question-batch fetch
returns exactly the requested stage length AND that stage-boundary
processing succeeds (so a session never lingers in a test stage with its
quota already answered), the unchecked `questions[currentQuestion]` read is
in bounds at every reachable submission: the cursor stays below the queue
length, and an answer submission never dereferences a missing question. The
code itself performs no bounds check — without the strengthened
precondition the lookup can yield no question (see the counterexample). -/
theorem C10_question_access (st : DiagState)
    (hreach : Reachable FullMainBatch BoundarySucceeds st)
    (hstage : st.stage = .mainTest ∨ st.stage = .confirmatory) :
    st.currentQuestion < st.questions.length
    ∧ ∀ o : AnswerOracle, handleAnswerSubmit st o ≠ none := by
  have hinv := reachable_MachineInv st hreach
  have hlt : st.currentQuestion < st.questions.length := by
    rcases hstage with h | h
    · obtain ⟨hql, hcq, hlen⟩ := hinv.2.1 h
      omega
    · obtain ⟨hql, hcq, hge, hlen⟩ := hinv.2.2 h
      omega
  refine ⟨hlt, ?_⟩
  intro o
  have hq : st.questions[st.currentQuestion]? = some st.questions[st.currentQuestion] :=
    List.getElem?_eq_getElem hlt
  cases hname : jsTrim st.userAnswer == "" with
  | true => simp [handleAnswerSubmit, hname]
  | false =>
    simp only [handleAnswerSubmit, hname, Bool.false_eq_true, if_false, hq]
    split
    · simp
    · split
      · simp
      · simp

/-- The states of a concrete enrollment: age entered, age submitted, name
entered, enrollment submitted with a full 10-question batch. -/
def wS1 : DiagState := { initState with age := some 8 }

/-- Stage `student-info` after the age submit. -/
def wS2 : DiagState := (handleAgeSubmit wS1).1

/-- Name entered. -/
def wS3 : DiagState := { wS2 with studentName := "Ann" }

/-- Stage `main-test` with a full queue. -/
def wS4 : DiagState := (handleStudentInfoSubmit wS3 oC7full).1

/-- The full-batch enrollment oracle satisfies C10's main-batch precondition. -/
theorem oC7full_FullMainBatch : FullMainBatch oC7full := by
  constructor
  · intro qs hq
    injection hq with h2
    rw [← h2]
    rfl
  · intro q hq
    simp [oC7full] at hq

/-- The enrollment prefix is reachable under any answer-oracle family. -/
theorem wSt_reach (A : AnswerOracle → Prop) :
    Relation.ReflTransGen (Step FullMainBatch A) initState wS4 := by
  have s1 : Step FullMainBatch A initState wS1 := Step.inputAge initState (some 8) rfl
  have s2 : Step FullMainBatch A wS1 wS2 := Step.ageSubmit wS1 rfl
  have s3 : Step FullMainBatch A wS2 wS3 := Step.inputName wS2 "Ann" rfl
  have s4 : Step FullMainBatch A wS3 wS4 :=
    Step.infoSubmit wS3 oC7full oC7full_FullMainBatch rfl
  exact (((Relation.ReflTransGen.refl.tail s1).tail s2).tail s3).tail s4

/-- Witness for the amended C10 at the freshly entered main test. -/
theorem C10_question_access_witness :
    wS4.currentQuestion < wS4.questions.length
    ∧ handleAnswerSubmit wS4 exOracle ≠ none :=
  ⟨(C10_question_access wS4 (wSt_reach BoundarySucceeds) (Or.inl rfl)).1,
   (C10_question_access wS4 (wSt_reach BoundarySucceeds) (Or.inl rfl)).2 exOracle⟩

/-- Oracle for the counterexample trace: both question-batch fetches return
full batches (the claim's precondition), but the roadmap fetch is rate
limited. -/
def cxOracle : AnswerOracle :=
  { saveResp := .ok (), blockerInsert := .ok (),
    confBatch := .okList (List.replicate 5 exQ),
    roadmapFetch := .rateLimited, roadmapInsert := .ok (), testUpdate := .ok (),
    blockerUpdate := .ok () }

/-- The trace oracle satisfies C10's confirmatory-batch precondition. -/
theorem cxOracle_FullConfBatch : FullConfBatch cxOracle := by
  intro qs hq
  injection hq with h2
  rw [← h2]
  rfl

/-- One user round in the trace: type "x", submit. -/
def cxRound (st : DiagState) : DiagState :=
  ((handleAnswerSubmit { st with userAnswer := "x" } cxOracle).map Prod.fst).getD st

/-- State after `n` rounds from the freshly entered main test. -/
def cxS (n : Nat) : DiagState := cxRound^[n] wS4

/-- The reachable state in which the next submission dereferences a missing
question: after the roadmap fetch failed at the 10th answer, an 11th answer
was accepted and the cursor ran past the 10-question queue. -/
def cxFinal : DiagState := { cxS 11 with userAnswer := "x" }

/-- Typing an answer and submitting it are two reachable steps. -/
theorem cx_two_steps (st st' : DiagState)
    (hst : st.stage = .mainTest ∨ st.stage = .confirmatory)
    (hok : (handleAnswerSubmit { st with userAnswer := "x" } cxOracle).map Prod.fst
      = some st') :
    Relation.ReflTransGen (Step FullMainBatch FullConfBatch) st st' :=
  (Relation.ReflTransGen.single (Step.inputAnswer st "x" hst)).tail
    (Step.answerSubmit { st with userAnswer := "x" } st' cxOracle
      cxOracle_FullConfBatch hst hok)

/-- Counterexample for C10: under the claim's stated precondition alone
(full batches; nothing assumed about the roadmap fetch), a session can reach
a `main-test` state with a 10-question queue where the cursor sits at index
10 — the next accepted submission's `questions[currentQuestion]` read yields
no question, so the stated precondition is not sufficient for in-bounds
access at every reachable submission. -/
theorem C10_counterexample :
    Reachable FullMainBatch FullConfBatch cxFinal
    ∧ cxFinal.stage = .mainTest
    ∧ cxFinal.questions.length = 10
    ∧ cxFinal.currentQuestion = 10
    ∧ (jsTrim cxFinal.userAnswer == "") = false
    ∧ handleAnswerSubmit cxFinal cxOracle = none := by
  refine ⟨?_, by decide, by decide, by decide, by decide, by decide⟩
  have h0 : Reachable FullMainBatch FullConfBatch (cxS 0) := wSt_reach FullConfBatch
  have h1 := h0.trans (cx_two_steps (cxS 0) (cxS 1) (by decide) (by decide))
  have h2 := h1.trans (cx_two_steps (cxS 1) (cxS 2) (by decide) (by decide))
  have h3 := h2.trans (cx_two_steps (cxS 2) (cxS 3) (by decide) (by decide))
  have h4 := h3.trans (cx_two_steps (cxS 3) (cxS 4) (by decide) (by decide))
  have h5 := h4.trans (cx_two_steps (cxS 4) (cxS 5) (by decide) (by decide))
  have h6 := h5.trans (cx_two_steps (cxS 5) (cxS 6) (by decide) (by decide))
  have h7 := h6.trans (cx_two_steps (cxS 6) (cxS 7) (by decide) (by decide))
  have h8 := h7.trans (cx_two_steps (cxS 7) (cxS 8) (by decide) (by decide))
  have h9 := h8.trans (cx_two_steps (cxS 8) (cxS 9) (by decide) (by decide))
  have h10 := h9.trans (cx_two_steps (cxS 9) (cxS 10) (by decide) (by decide))
  have h11 := h10.trans (cx_two_steps (cxS 10) (cxS 11) (by decide) (by decide))
  exact h11.tail (Step.inputAnswer (cxS 11) "x" (by decide))
